import Mathlib

/-!
Verification of the MindWell conversation session engine.

The development below is a shallow embedding of the Python sources
`total-final.py`, `final.py`, `app.py` and `history.py` of the
mental-health-support repository.  Pure functions are translated to Lean
functions; the SQLite-backed store is an explicit state record; HTTP and
streaming effects are modelled by explicit outcome oracles.  Floating-point
sentiment scores are modelled by exact rationals (all constants involved,
such as 0.2 and 0.6, are exact decimal literals, and the code only compares
them with `<=`, so the rational model is faithful on the inputs considered).
-/

/-! Lexical helpers shared by `final.py` and `total-final.py`.

`pyIsWordChar` models the regex class `\w` and `pyIsSpaceChar` models `\s`
(restricted to ASCII, which covers every input appearing in the claims).
`splitWsAux` models Python's `str.split()` with no argument: it splits on
runs of whitespace and produces no empty tokens. -/

def pyIsWordChar (c : Char) : Bool :=
  c.isAlphanum || c == '_'

def pyIsSpaceChar (c : Char) : Bool :=
  c == ' ' || c == '\t' || c == '\n' || c == '\r' || c == Char.ofNat 11 || c == Char.ofNat 12

def splitWsAux : List Char → List Char → List String
  | [], acc => if acc.isEmpty then [] else [String.mk acc.reverse]
  | c :: cs, acc =>
      if pyIsSpaceChar c then
        if acc.isEmpty then splitWsAux cs [] else String.mk acc.reverse :: splitWsAux cs []
      else splitWsAux cs (c :: acc)

def pySplitWs (s : String) : List String :=
  splitWsAux s.data []

namespace TotalFinal

/-- Emotional categories and their sentiment ranges (`total-final.py`,
`EMOTION_RANGES`).  The Lean list preserves the Python dict's insertion
order, which is the iteration order used by `determine_emotional_state`.
The decimal literals 0.6, 0.2, -0.2, -0.6 of the source are written as the
numerically identical exact rationals `mkRat 6 10` etc., a form that
reduces inside the kernel. -/
def EMOTION_RANGES : List (String × ℚ × ℚ) :=
  [("Very Happy", mkRat 6 10, 1),
   ("Happy", mkRat 2 10, mkRat 6 10),
   ("Neutral", mkRat (-2) 10, mkRat 2 10),
   ("Sad", mkRat (-6) 10, mkRat (-2) 10),
   ("Very Sad", -1, mkRat (-6) 10)]

/-- The `for emotion, (low, high) in EMOTION_RANGES.items()` loop body of
`determine_emotional_state`: return the first emotion whose inclusive range
contains the sentiment, falling back to `"Neutral"`. -/
def lookupEmotion (s : ℚ) : List (String × ℚ × ℚ) → String
  | [] => "Neutral"
  | (emotion, low, high) :: rest =>
      if low ≤ s ∧ s ≤ high then emotion else lookupEmotion s rest

/-- Embeds `determine_emotional_state` from `total-final.py`. -/
def determine_emotional_state (sentiment : ℚ) : String :=
  lookupEmotion sentiment EMOTION_RANGES

/-- The stop-word set of `extract_topics` (`total-final.py`; `final.py` has
an identical copy). -/
def stop_words : List String :=
  ["i", "me", "my", "myself", "we", "our", "ours", "ourselves", "you",
   "you're", "you've", "you'll", "you'd", "your", "yours", "yourself",
   "yourselves", "he", "him", "his", "himself", "she", "she's", "her",
   "hers", "herself", "it", "it's", "its", "itself", "they", "them",
   "their", "theirs", "themselves", "what", "which", "who", "whom",
   "this", "that", "that'll", "these", "those", "am", "is", "are",
   "was", "were", "be", "been", "being", "have", "has", "had",
   "having", "do", "does", "did", "doing", "a", "an", "the", "and",
   "but", "if", "or", "because", "as", "until", "while", "of", "at",
   "by", "for", "with", "about", "against", "between", "into",
   "through", "during", "before", "after", "above", "below", "to",
   "from", "up", "down", "in", "out", "on", "off", "over", "under",
   "again", "further", "then", "once"]

/-- The token list `words` computed inside `extract_topics`: lowercase the
text, delete every character that is neither a word character nor
whitespace (the regex `re.sub` call), split on whitespace, and drop
stop words and tokens of length at most 3. -/
def wordsOf (text : String) : List String :=
  let cleaned := (text.data.map Char.toLower).filter (fun c => pyIsWordChar c || pyIsSpaceChar c)
  (splitWsAux cleaned []).filter (fun w => decide (w ∉ stop_words ∧ 3 < w.length))

/-- Deduplication preserving first occurrences; models the key order of a
Python `Counter` built from a list (insertion order of first occurrence). -/
def firstOccurrences : List String → List String
  | [] => []
  | w :: rest => w :: (firstOccurrences rest).filter (fun x => x ≠ w)

/-- The items of `Counter(words)` together with the data that determines
`most_common`'s order: each distinct word paired with its multiplicity and
the position of its first occurrence. -/
def counterItems (l : List String) : List (String × Nat × Nat) :=
  (firstOccurrences l).map (fun w => (w, l.count w, l.indexOf w))

/-- Order used to model `Counter.most_common`: higher count first, and for
equal counts, earlier first occurrence first.  `most_common` is a stable
sort by descending count over items listed in first-occurrence order, which
coincides with this lexicographic order because first-occurrence indices of
distinct words are distinct and increasing. -/
def countIdxLe (a b : String × Nat × Nat) : Prop :=
  b.2.1 < a.2.1 ∨ (a.2.1 = b.2.1 ∧ a.2.2 ≤ b.2.2)

instance : DecidableRel countIdxLe := fun a b => by
  unfold countIdxLe; infer_instance

instance : IsTotal (String × Nat × Nat) countIdxLe :=
  ⟨by intro a b; unfold countIdxLe; omega⟩

instance : IsTrans (String × Nat × Nat) countIdxLe :=
  ⟨by intro a b c; unfold countIdxLe; omega⟩

/-- Embeds `Counter(words).most_common(top_n)`. -/
def most_common (l : List (String × Nat × Nat)) (n : Nat) : List (String × Nat × Nat) :=
  (l.insertionSort countIdxLe).take n

/-- Embeds `extract_topics` from `total-final.py` (identical in
`final.py`): the words of the cleaned text, counted, ranked by descending
frequency with first-occurrence tie-break, truncated to `top_n`. -/
def extract_topics (text : String) (top_n : Nat) : List String :=
  (most_common (counterItems (wordsOf text)) top_n).map (fun x => x.1)

/-- Outcome of the streaming POST request made by `stream_response`: either
the backend yields a stream whose nonempty lines carry the `response`
fields listed here (JSON decoding of each line is outside the model), or
some exception with the given rendered text is raised. -/
inductive StreamOutcome where
  | ok (fragments : List String)
  | exn (msg : String)

/-- The `for line in response.iter_lines()` loop of `stream_response`
(`total-final.py`): before consuming fragment `i` the code reads the stop
flag (`stop_button or st.session_state.stop_generation`), modelled by
`stopAt i`; if set it breaks out, otherwise it appends the fragment to the
accumulator. -/
def stream_loop (stopAt : Nat → Bool) : List String → Nat → List String
  | [], _ => []
  | tok :: rest, i =>
      if stopAt i then [] else tok :: stream_loop stopAt rest (i + 1)

/-- Embeds `stream_response` from `total-final.py`: joins the consumed
fragments; any exception raised by the request or the loop is caught and
rendered as `"Error: " ++ msg`.  The function is total: no failure of the
backend escapes it. -/
def stream_response (stopAt : Nat → Bool) : StreamOutcome → String
  | .ok fragments => String.join (stream_loop stopAt fragments 0)
  | .exn msg => "Error: " ++ msg

/-- An entry of `st.session_state.messages`. -/
structure Msg where
  role : String
  content : String
  timestamp : String
deriving DecidableEq

/-- The dict returned by `analyze_conversation` in `total-final.py`. -/
structure Analysis where
  sentiment : ℚ
  emotional_state : String
  topics : List String
  message_lengths : List Nat
  total_messages : Nat
  user_message_count : Nat
  avg_message_length : ℚ
deriving DecidableEq

/-- Embeds `analyze_conversation` from `total-final.py`.  The sentiment
scorer (`TextBlob(...).sentiment.polarity`) is an external library call and
is passed in as the function parameter `analyze_sentiment`; everything
else is translated from the source.  Returns `none` exactly when the
message list is empty (`if not messages: return None`). -/
def analyze_conversation (analyze_sentiment : String → ℚ) (messages : List Msg) :
    Option Analysis :=
  if messages.isEmpty then none
  else
    let user_messages := (messages.filter (fun m => m.role == "user")).map (fun m => m.content)
    let full_text := String.intercalate " " user_messages
    let sentiment := analyze_sentiment full_text
    let message_lengths := messages.map (fun m => (pySplitWs m.content).length)
    some
      { sentiment := sentiment
        emotional_state := determine_emotional_state sentiment
        topics := extract_topics full_text 5
        message_lengths := message_lengths
        total_messages := messages.length
        user_message_count := user_messages.length
        avg_message_length := (message_lengths.sum : ℚ) / (message_lengths.length : ℚ) }

end TotalFinal

namespace Final

/-- The dict returned by `analyze_conversation` in `final.py` (no
`emotional_state` and no `user_message_count` field in this variant). -/
structure Analysis where
  sentiment : ℚ
  topics : List String
  message_lengths : List Nat
  total_messages : Nat
  avg_message_length : ℚ
deriving DecidableEq

/-- Embeds `analyze_conversation` from `final.py`.  Unlike the
`total-final.py` variant, `full_text` joins the contents of ALL messages,
assistant turns included.  `extract_topics` is byte-for-byte identical in
the two files and is shared as `TotalFinal.extract_topics`. -/
def analyze_conversation (analyze_sentiment : String → ℚ) (messages : List TotalFinal.Msg) :
    Option Analysis :=
  if messages.isEmpty then none
  else
    let full_text := String.intercalate " " (messages.map (fun m => m.content))
    let message_lengths := messages.map (fun m => (pySplitWs m.content).length)
    some
      { sentiment := analyze_sentiment full_text
        topics := TotalFinal.extract_topics full_text 5
        message_lengths := message_lengths
        total_messages := messages.length
        avg_message_length := (message_lengths.sum : ℚ) / (message_lengths.length : ℚ) }

end Final

namespace App

/-- Outcome of one blocking POST to the generation endpoint, as
distinguished by `send_message` in `app.py`: a 200 response (with its
optional `response` field), a non-200 status, a `requests.exceptions.Timeout`,
a `requests.exceptions.ConnectionError`, or some other exception. -/
inductive Outcome where
  | success (resp : Option String)
  | httpError
  | timeout
  | connectionError
  | otherError (msg : String)

/-- Observable result of a `send_message` call: the returned string, the
number of HTTP requests actually issued, and the total `time.sleep` units
spent between attempts. -/
structure CallResult where
  reply : String
  requests : Nat
  waitTime : Nat
deriving DecidableEq

def MAX_RETRIES : Nat := 3

/-- Embeds `send_message` from `app.py`.  `oracle n` is the outcome of the
attempt made at retry counter value `n`.  The function returns (never
raises): every exception branch is caught and rendered as a string. -/
def send_message (oracle : Nat → Outcome) (retries : Nat) : CallResult :=
  if MAX_RETRIES ≤ retries then
    ⟨"Error: Maximum retries reached. Please try again later.", 0, 0⟩
  else
    match oracle retries with
    | .success r =>
        ⟨r.getD "I apologize, but I couldn't generate a response.", 1, 0⟩
    | .httpError =>
        let res := send_message oracle (retries + 1)
        ⟨res.reply, res.requests + 1, res.waitTime + 1⟩
    | .timeout =>
        let res := send_message oracle (retries + 1)
        ⟨res.reply, res.requests + 1, res.waitTime + 2⟩
    | .connectionError =>
        ⟨"Error: Could not connect to Ollama server. Please ensure it is running.", 1, 0⟩
    | .otherError m =>
        ⟨"Error: " ++ m, 1, 0⟩
termination_by MAX_RETRIES - retries
decreasing_by all_goals omega

end App

namespace History

/-- A row of the `messages` table.  `timestamp` models the
`CURRENT_TIMESTAMP` value assigned by SQLite at insertion time. -/
structure MessageRow where
  id : Nat
  conversation_id : Nat
  role : String
  content : String
  timestamp : Nat
deriving DecidableEq

/-- A row of the `conversations` table; `topics` holds the
`json.dumps`-serialized keyword list, modelled as the list itself. -/
structure ConversationRow where
  id : Nat
  session_id : String
  timestamp : Nat
  sentiment : Option ℚ
  topics : Option (List String)
deriving DecidableEq

/-- The SQLite database of `history.py` (and of the identical schema in
`total-final.py`): the two tables plus the AUTOINCREMENT counters. -/
structure Store where
  conversations : List ConversationRow
  messages : List MessageRow
  nextConvId : Nat
  nextMsgId : Nat
deriving DecidableEq

/-- Embeds `start_new_conversation`: inserts a conversation row and
returns its fresh id. -/
def start_new_conversation (s : Store) (now : Nat) (session_id : String) : Store × Nat :=
  ({ s with
      conversations := s.conversations ++ [⟨s.nextConvId, session_id, now, none, none⟩],
      nextConvId := s.nextConvId + 1 },
   s.nextConvId)

/-- Embeds `add_message` from `history.py` (and the identical
`save_message` of `total-final.py`/`final.py`).  The INSERT succeeds for
any `conversation_id` whatsoever: the schema declares
`FOREIGN KEY (conversation_id) REFERENCES conversations(id)`, but Python's
`sqlite3` leaves `PRAGMA foreign_keys` OFF, so the constraint is never
enforced and no existence check is performed. -/
def add_message (s : Store) (now : Nat) (conversation_id : Nat) (role content : String) :
    Store :=
  { s with
      messages := s.messages ++ [⟨s.nextMsgId, conversation_id, role, content, now⟩],
      nextMsgId := s.nextMsgId + 1 }

/-- Comparison used to model `ORDER BY timestamp`. -/
def tsLe (a b : MessageRow) : Prop :=
  a.timestamp ≤ b.timestamp

instance : DecidableRel tsLe := fun a b => by
  unfold tsLe; infer_instance

instance : IsTotal MessageRow tsLe :=
  ⟨by intro a b; unfold tsLe; omega⟩

instance : IsTrans MessageRow tsLe :=
  ⟨by intro a b c; unfold tsLe; omega⟩

/-- Embeds `get_conversation_history`: `SELECT role, content, timestamp
FROM messages WHERE conversation_id = ? ORDER BY timestamp`.  The table
scan yields rows in insertion (rowid) order and `ORDER BY` sorts them by
timestamp, modelled by a stable insertion sort. -/
def get_conversation_history (s : Store) (conversation_id : Nat) :
    List (String × String × Nat) :=
  (((s.messages.filter (fun m => m.conversation_id == conversation_id)).insertionSort tsLe).map
    (fun m => (m.role, m.content, m.timestamp)))

/-- Embeds `update_conversation_analysis` from `history.py`: `UPDATE
conversations SET sentiment = ?, topics = ? WHERE id = ?`.  A WHERE clause
matching no row updates nothing and raises nothing. -/
def update_conversation_analysis (s : Store) (conversation_id : Nat)
    (sentiment : ℚ) (topics : List String) : Store :=
  { s with
      conversations := s.conversations.map (fun c =>
        if c.id == conversation_id then
          { c with sentiment := some sentiment, topics := some topics }
        else c) }

end History

namespace TotalFinal

/-- The state touched by the submit path of `display_chat_page`: the
in-memory `st.session_state.messages` buffer, the SQLite store and the
active conversation id. -/
structure ChatState where
  messages : List Msg
  store : History.Store
  conversation_id : Nat
deriving DecidableEq

/-- Embeds the submit path of `display_chat_page` (`total-final.py`):
append the user turn in memory, persist it (`save_message`), run
`stream_response`, then append and persist the assistant turn whose
content is whatever `stream_response` returned — a full or partial
accumulation, or a rendered error. -/
def submit_cycle (stopAt : Nat → Bool) (outcome : StreamOutcome) (now : Nat)
    (ts : String) (st : ChatState) (user_input : String) : ChatState :=
  let afterUser : ChatState :=
    { st with
        messages := st.messages ++ [⟨"user", user_input, ts⟩],
        store := History.add_message st.store now st.conversation_id "user" user_input }
  let response := stream_response stopAt outcome
  { afterUser with
      messages := afterUser.messages ++ [⟨"assistant", response, ts⟩],
      store := History.add_message afterUser.store now st.conversation_id "assistant" response }

end TotalFinal

/-! Theorems about the Emotion Classifier (claims C1 and C7). -/

/-- Closed form of `determine_emotional_state`: the range table of
`EMOTION_RANGES` unfolded in its iteration order. -/
theorem det_closed_form (s : ℚ) :
    TotalFinal.determine_emotional_state s =
      if mkRat 6 10 ≤ s ∧ s ≤ 1 then "Very Happy"
      else if mkRat 2 10 ≤ s ∧ s ≤ mkRat 6 10 then "Happy"
      else if mkRat (-2) 10 ≤ s ∧ s ≤ mkRat 2 10 then "Neutral"
      else if mkRat (-6) 10 ≤ s ∧ s ≤ mkRat (-2) 10 then "Sad"
      else if -1 ≤ s ∧ s ≤ mkRat (-6) 10 then "Very Sad"
      else "Neutral" := rfl

theorem q6 : (mkRat 6 10 : ℚ) = 3/5 := by norm_num [Rat.mkRat_eq_div]

theorem q2 : (mkRat 2 10 : ℚ) = 1/5 := by norm_num [Rat.mkRat_eq_div]

theorem qm2 : (mkRat (-2) 10 : ℚ) = -(1/5) := by norm_num [Rat.mkRat_eq_div]

theorem qm6 : (mkRat (-6) 10 : ℚ) = -(3/5) := by norm_num [Rat.mkRat_eq_div]

theorem q02 : (0.2 : ℚ) = mkRat 2 10 := by norm_num [Rat.mkRat_eq_div]

/-- Claim C1 fails as stated: at sentiment 0.2 the classifier returns
"Happy", not "Neutral" — the range lookup iterates from "Very Happy"
downwards and `("Happy", 0.2, 0.6)` is checked before
`("Neutral", -0.2, 0.2)`, so each shared boundary belongs to the higher
range. -/
theorem C1_boundary_counterexample :
    TotalFinal.determine_emotional_state 0.2 = "Happy" ∧
    TotalFinal.determine_emotional_state 0.2 ≠ "Neutral" := by
  rw [q02]; decide

/-- Claim C1 (amended): for every sentiment in [-1,1],
`determine_emotional_state` returns exactly one of the five labels and the
effective ranges partition [-1,1] with each shared boundary resolved to
the higher range: Very Sad [-1,-0.6), Sad [-0.6,-0.2), Neutral [-0.2,0.2),
Happy [0.2,0.6), Very Happy [0.6,1]; in particular classify(-1)="Very Sad",
classify(0)="Neutral", classify(1)="Very Happy", classify(0.2)="Happy" and
classify(0.2000001)="Happy".  (`mkRat 2 10` is the exact rational 0.2,
`mkRat 2000001 10000000` is 0.2000001.) -/
theorem C1_emotion_classifier_partition :
    (∀ s : ℚ, -1 ≤ s → s ≤ 1 →
      ((TotalFinal.determine_emotional_state s = "Very Sad" ↔ s < mkRat (-6) 10) ∧
       (TotalFinal.determine_emotional_state s = "Sad" ↔ mkRat (-6) 10 ≤ s ∧ s < mkRat (-2) 10) ∧
       (TotalFinal.determine_emotional_state s = "Neutral" ↔ mkRat (-2) 10 ≤ s ∧ s < mkRat 2 10) ∧
       (TotalFinal.determine_emotional_state s = "Happy" ↔ mkRat 2 10 ≤ s ∧ s < mkRat 6 10) ∧
       (TotalFinal.determine_emotional_state s = "Very Happy" ↔ mkRat 6 10 ≤ s) ∧
       TotalFinal.determine_emotional_state s ∈
         ["Very Sad", "Sad", "Neutral", "Happy", "Very Happy"])) ∧
    TotalFinal.determine_emotional_state (-1) = "Very Sad" ∧
    TotalFinal.determine_emotional_state 0 = "Neutral" ∧
    TotalFinal.determine_emotional_state 1 = "Very Happy" ∧
    TotalFinal.determine_emotional_state (mkRat 2 10) = "Happy" ∧
    TotalFinal.determine_emotional_state (mkRat 2000001 10000000) = "Happy" := by
  refine ⟨?_, by decide, by decide, by decide, by decide, by decide⟩
  intro s h1 h2
  rw [det_closed_form s, q6, q2, qm2, qm6]
  split_ifs with hVH hH hN hS hVS
  · refine ⟨iff_of_false (by decide) ?_, iff_of_false (by decide) ?_,
      iff_of_false (by decide) ?_, iff_of_false (by decide) ?_,
      iff_of_true rfl hVH.1, by decide⟩
    · exact not_lt.mpr (by linarith [hVH.1])
    · rintro ⟨ha, hb⟩; linarith [hVH.1]
    · rintro ⟨ha, hb⟩; linarith [hVH.1]
    · rintro ⟨ha, hb⟩; linarith [hVH.1]
  · have hlt : s < 3/5 := by
      by_contra hc; push_neg at hc; exact hVH ⟨hc, h2⟩
    refine ⟨iff_of_false (by decide) ?_, iff_of_false (by decide) ?_,
      iff_of_false (by decide) ?_, iff_of_true rfl ⟨hH.1, hlt⟩,
      iff_of_false (by decide) ?_, by decide⟩
    · exact not_lt.mpr (by linarith [hH.1])
    · rintro ⟨ha, hb⟩; linarith [hH.1]
    · rintro ⟨ha, hb⟩; linarith [hH.1]
    · exact not_le.mpr hlt
  · have hlt : s < 1/5 := by
      by_contra hc; push_neg at hc; exact hH ⟨hc, by linarith [hN.2]⟩
    refine ⟨iff_of_false (by decide) ?_, iff_of_false (by decide) ?_,
      iff_of_true rfl ⟨hN.1, hlt⟩, iff_of_false (by decide) ?_,
      iff_of_false (by decide) ?_, by decide⟩
    · exact not_lt.mpr (by linarith [hN.1])
    · rintro ⟨ha, hb⟩; linarith [hN.1]
    · rintro ⟨ha, hb⟩; linarith
    · exact not_le.mpr (by linarith)
  · have hlt : s < -(1/5) := by
      by_contra hc; push_neg at hc; exact hN ⟨hc, by linarith [hS.2]⟩
    refine ⟨iff_of_false (by decide) ?_, iff_of_true rfl ⟨hS.1, hlt⟩,
      iff_of_false (by decide) ?_, iff_of_false (by decide) ?_,
      iff_of_false (by decide) ?_, by decide⟩
    · exact not_lt.mpr (by linarith [hS.1])
    · rintro ⟨ha, hb⟩; linarith
    · rintro ⟨ha, hb⟩; linarith
    · exact not_le.mpr (by linarith)
  · have hlt : s < -(3/5) := by
      by_contra hc; push_neg at hc; exact hS ⟨hc, by linarith [hVS.2]⟩
    refine ⟨iff_of_true rfl hlt, iff_of_false (by decide) ?_,
      iff_of_false (by decide) ?_, iff_of_false (by decide) ?_,
      iff_of_false (by decide) ?_, by decide⟩
    · rintro ⟨ha, hb⟩; linarith
    · rintro ⟨ha, hb⟩; linarith
    · rintro ⟨ha, hb⟩; linarith
    · exact not_le.mpr (by linarith)
  · exfalso
    have h3 : s < 3/5 := by
      by_contra hc; push_neg at hc; exact hVH ⟨hc, h2⟩
    have h4 : s < 1/5 := by
      by_contra hc; push_neg at hc; exact hH ⟨hc, by linarith⟩
    have h5 : s < -(1/5) := by
      by_contra hc; push_neg at hc; exact hN ⟨hc, by linarith⟩
    have h6 : s < -(3/5) := by
      by_contra hc; push_neg at hc; exact hS ⟨hc, by linarith⟩
    exact hVS ⟨h1, by linarith⟩

/-- Concrete instance of `C1_emotion_classifier_partition` at s = 0.5. -/
theorem C1_emotion_classifier_partition_witness :
    TotalFinal.determine_emotional_state (mkRat 1 2) = "Happy" ↔
      mkRat 2 10 ≤ (mkRat 1 2 : ℚ) ∧ (mkRat 1 2 : ℚ) < mkRat 6 10 :=
  (C1_emotion_classifier_partition.1 (mkRat 1 2) (by decide) (by decide)).2.2.2.1

/-- Claim C7 fails as stated: out-of-domain sentiments are not clamped to
the nearest boundary; they fall through the whole range table and hit the
default return, "Neutral". -/
theorem C7_no_clamping_counterexample :
    TotalFinal.determine_emotional_state 2 = "Neutral" ∧
    TotalFinal.determine_emotional_state 2 ≠ "Very Happy" ∧
    TotalFinal.determine_emotional_state (-2) = "Neutral" ∧
    TotalFinal.determine_emotional_state (-2) ≠ "Very Sad" := by
  decide

/-- Claim C7 (amended): every out-of-domain sentiment (s > 1 or s < -1)
makes `determine_emotional_state` fall through the range table and return
the defensive default "Neutral" rather than erroring. -/
theorem C7_out_of_domain_neutral :
    ∀ s : ℚ, (1 < s ∨ s < -1) → TotalFinal.determine_emotional_state s = "Neutral" := by
  intro s h
  rcases h with h | h
  · rw [det_closed_form s, q6, q2, qm2, qm6]
    split_ifs with h1 h2 h3 h4 h5
    · exact absurd h1.2 (not_le.mpr h)
    · exact absurd h2.2 (not_le.mpr (by linarith))
    · exact absurd h3.2 (not_le.mpr (by linarith))
    · exact absurd h4.2 (not_le.mpr (by linarith))
    · exact absurd h5.2 (not_le.mpr (by linarith))
    · rfl
  · rw [det_closed_form s, q6, q2, qm2, qm6]
    split_ifs with h1 h2 h3 h4 h5
    · exact absurd h1.1 (not_le.mpr (by linarith))
    · exact absurd h2.1 (not_le.mpr (by linarith))
    · exact absurd h3.1 (not_le.mpr (by linarith))
    · exact absurd h4.1 (not_le.mpr (by linarith))
    · exact absurd h5.1 (not_le.mpr h)
    · rfl

/-- Concrete instance of `C7_out_of_domain_neutral` at s = 3. -/
theorem C7_out_of_domain_neutral_witness :
    TotalFinal.determine_emotional_state 3 = "Neutral" :=
  C7_out_of_domain_neutral 3 (Or.inl (by norm_num))

/-! Theorems about the Lexical Analyzer (claim C8). -/

/-- Every element of `firstOccurrences l` occurs in `l`. -/
theorem firstOccurrences_subset : ∀ (l : List String), ∀ x ∈ TotalFinal.firstOccurrences l, x ∈ l
  | [], x, hx => by simp [TotalFinal.firstOccurrences] at hx
  | w :: rest, x, hx => by
      simp only [TotalFinal.firstOccurrences, List.mem_cons] at hx
      rcases hx with h | h
      · exact h ▸ List.mem_cons_self _ _
      · exact List.mem_cons_of_mem _
          (firstOccurrences_subset rest x (List.mem_of_mem_filter h))

/-- Every item of `counterItems l` carries the count and first-occurrence
index of its own word. -/
theorem counterItems_shape (l : List String) :
    ∀ x ∈ TotalFinal.counterItems l,
      x.2.1 = l.count x.1 ∧ x.2.2 = l.indexOf x.1 ∧ x.1 ∈ l := by
  intro x hx
  simp only [TotalFinal.counterItems, List.mem_map] at hx
  obtain ⟨w, hw, rfl⟩ := hx
  exact ⟨rfl, rfl, firstOccurrences_subset l w hw⟩

/-- Every token kept by the `extract_topics` filter avoids the stop-word
set and has length greater than 3. -/
theorem wordsOf_mem_prop (text : String) :
    ∀ w ∈ TotalFinal.wordsOf text, w ∉ TotalFinal.stop_words ∧ 3 < w.length := by
  intro w hw
  simp only [TotalFinal.wordsOf] at hw
  exact of_decide_eq_true (List.mem_filter.mp hw).2

/-- Claim C8: for every text and every n, `extract_topics` returns at most
n tokens, each drawn from the lowercased, punctuation-stripped,
whitespace-tokenized word list with stop words and tokens of length ≤ 3
discarded, ordered by descending count with first-occurrence tie-break
(deterministically — it is a function); the empty text yields the empty
sequence, and the "the the the sadness sadness happy" example returns
["sadness", "happy"] at n = 2. -/
theorem C8_extract_topics_spec (text : String) (n : Nat) :
    (TotalFinal.extract_topics text n).length ≤ n ∧
    TotalFinal.extract_topics "" n = [] ∧
    List.Pairwise (fun a b =>
        (TotalFinal.wordsOf text).count b ≤ (TotalFinal.wordsOf text).count a ∧
        ((TotalFinal.wordsOf text).count a = (TotalFinal.wordsOf text).count b →
          (TotalFinal.wordsOf text).indexOf a ≤ (TotalFinal.wordsOf text).indexOf b))
      (TotalFinal.extract_topics text n) ∧
    (∀ w ∈ TotalFinal.extract_topics text n,
      w ∈ TotalFinal.wordsOf text ∧ w ∉ TotalFinal.stop_words ∧ 3 < w.length) ∧
    TotalFinal.extract_topics "the the the sadness sadness happy" 2 = ["sadness", "happy"] := by
  have hmem : ∀ x ∈ TotalFinal.most_common (TotalFinal.counterItems (TotalFinal.wordsOf text)) n,
      x ∈ TotalFinal.counterItems (TotalFinal.wordsOf text) := by
    intro x hx
    exact (List.perm_insertionSort _ _).subset ((List.take_sublist n _).subset hx)
  refine ⟨?_, ?_, ?_, ?_, by decide⟩
  · simp only [TotalFinal.extract_topics, TotalFinal.most_common, List.length_map,
      List.length_take]
    exact min_le_left _ _
  · have h0 : TotalFinal.counterItems (TotalFinal.wordsOf "") = [] := by decide
    simp [TotalFinal.extract_topics, TotalFinal.most_common, h0]
  · have hsorted : List.Sorted TotalFinal.countIdxLe
        (List.insertionSort TotalFinal.countIdxLe
          (TotalFinal.counterItems (TotalFinal.wordsOf text))) :=
      List.sorted_insertionSort _ _
    have htake : List.Pairwise TotalFinal.countIdxLe
        (TotalFinal.most_common (TotalFinal.counterItems (TotalFinal.wordsOf text)) n) :=
      List.Pairwise.sublist (List.take_sublist n _) hsorted
    rw [TotalFinal.extract_topics, List.pairwise_map]
    refine htake.imp_of_mem ?_
    intro a b ha hb hr
    obtain ⟨hca, hia, -⟩ := counterItems_shape _ a (hmem a ha)
    obtain ⟨hcb, hib, -⟩ := counterItems_shape _ b (hmem b hb)
    rw [← hca, ← hcb, ← hia, ← hib]
    unfold TotalFinal.countIdxLe at hr
    omega
  · intro w hw
    simp only [TotalFinal.extract_topics, List.mem_map] at hw
    obtain ⟨x, hx, rfl⟩ := hw
    obtain ⟨-, -, hxmem⟩ := counterItems_shape _ x (hmem x hx)
    exact ⟨hxmem, wordsOf_mem_prop text x.1 hxmem⟩

/-- Concrete instance of `C8_extract_topics_spec` on the spec's example
text, with the membership part discharged at the token "sadness". -/
theorem C8_extract_topics_spec_witness :
    TotalFinal.extract_topics "the the the sadness sadness happy" 2 = ["sadness", "happy"] ∧
    ("sadness" ∈ TotalFinal.wordsOf "the the the sadness sadness happy" ∧
     "sadness" ∉ TotalFinal.stop_words ∧ 3 < ("sadness" : String).length) := by
  have h := C8_extract_topics_spec "the the the sadness sadness happy" 2
  refine ⟨h.2.2.2.2, h.2.2.2.1 "sadness" ?_⟩
  decide

/-! Theorems about the Inference Client retry policy (claim C3). -/

/-- With the retry counter at or past `MAX_RETRIES`, `send_message` makes
no request and returns the retries-exhausted message. -/
theorem send_message_guard (oracle : Nat → App.Outcome) (r : Nat)
    (h : App.MAX_RETRIES ≤ r) :
    App.send_message oracle r =
      ⟨"Error: Maximum retries reached. Please try again later.", 0, 0⟩ := by
  unfold App.send_message
  rw [if_pos h]

/-- A non-200 status makes `send_message` sleep 1 unit and retry the whole
request with the counter incremented. -/
theorem send_message_http (oracle : Nat → App.Outcome) (r : Nat)
    (h1 : r < App.MAX_RETRIES) (h2 : oracle r = .httpError) :
    App.send_message oracle r =
      ⟨(App.send_message oracle (r + 1)).reply,
       (App.send_message oracle (r + 1)).requests + 1,
       (App.send_message oracle (r + 1)).waitTime + 1⟩ := by
  rw [App.send_message]
  rw [if_neg (not_le.mpr h1), h2]

/-- A timeout makes `send_message` sleep 2 units and retry the whole
request with the counter incremented. -/
theorem send_message_timeout (oracle : Nat → App.Outcome) (r : Nat)
    (h1 : r < App.MAX_RETRIES) (h2 : oracle r = .timeout) :
    App.send_message oracle r =
      ⟨(App.send_message oracle (r + 1)).reply,
       (App.send_message oracle (r + 1)).requests + 1,
       (App.send_message oracle (r + 1)).waitTime + 2⟩ := by
  rw [App.send_message]
  rw [if_neg (not_le.mpr h1), h2]

/-- A connection-refused condition returns the backend-unavailable message
at once: one request, no wait, no retry. -/
theorem send_message_conn (oracle : Nat → App.Outcome) (r : Nat)
    (h1 : r < App.MAX_RETRIES) (h2 : oracle r = .connectionError) :
    App.send_message oracle r =
      ⟨"Error: Could not connect to Ollama server. Please ensure it is running.", 1, 0⟩ := by
  rw [App.send_message]
  rw [if_neg (not_le.mpr h1), h2]

theorem send_message_requests_le_aux :
    ∀ (k r : Nat), App.MAX_RETRIES - r ≤ k →
      ∀ oracle : Nat → App.Outcome,
        (App.send_message oracle r).requests ≤ App.MAX_RETRIES - r := by
  intro k
  induction k with
  | zero =>
      intro r hr oracle
      rw [send_message_guard oracle r (by omega)]
      exact Nat.zero_le _
  | succ k ih =>
      intro r hr oracle
      by_cases h : App.MAX_RETRIES ≤ r
      · rw [send_message_guard oracle r h]
        exact Nat.zero_le _
      · have hlt : r < App.MAX_RETRIES := not_le.mp h
        have hnext := ih (r + 1) (by omega) oracle
        cases ho : oracle r with
        | success resp =>
            rw [App.send_message, if_neg h, ho]
            dsimp only
            omega
        | httpError =>
            rw [send_message_http oracle r hlt ho]
            dsimp only
            omega
        | timeout =>
            rw [send_message_timeout oracle r hlt ho]
            dsimp only
            omega
        | connectionError =>
            rw [send_message_conn oracle r hlt ho]
            dsimp only
            omega
        | otherError m =>
            rw [App.send_message, if_neg h, ho]
            dsimp only
            omega

/-- A `send_message` call started at counter `r` issues at most
`MAX_RETRIES - r` HTTP requests. -/
theorem send_message_requests_le (oracle : Nat → App.Outcome) (r : Nat) :
    (App.send_message oracle r).requests ≤ App.MAX_RETRIES - r :=
  send_message_requests_le_aux (App.MAX_RETRIES - r) r (Nat.le_refl _) oracle

/-- When every attempt fails retryably, the call bottoms out in the
retries-exhausted message, returned as an ordinary string. -/
theorem send_message_exhausted (oracle : Nat → App.Outcome)
    (h : ∀ i, i < App.MAX_RETRIES → oracle i = .httpError ∨ oracle i = .timeout) :
    (App.send_message oracle 0).reply =
      "Error: Maximum retries reached. Please try again later." := by
  have step : ∀ r, r < App.MAX_RETRIES →
      (App.send_message oracle r).reply = (App.send_message oracle (r + 1)).reply := by
    intro r hr
    rcases h r hr with h2 | h2
    · rw [send_message_http oracle r hr h2]
    · rw [send_message_timeout oracle r hr h2]
  calc (App.send_message oracle 0).reply
      = (App.send_message oracle 1).reply := step 0 (by decide)
    _ = (App.send_message oracle 2).reply := step 1 (by decide)
    _ = (App.send_message oracle 3).reply := step 2 (by decide)
    _ = "Error: Maximum retries reached. Please try again later." := by
        rw [send_message_guard oracle 3 (by decide)]

/-- Claim C3: in non-streaming mode, for every sequence of backend
outcomes, `send_message` retries after a non-success HTTP status waiting 1
time unit and after a timeout waiting 2 time units, the retry counter is
capped at `MAX_RETRIES = 3` (so at most 3 HTTP requests are ever issued,
and once the counter reaches the cap the retries-exhausted error message
is returned as an ordinary result, not raised); a connection-refused
condition returns the backend-unavailable error message immediately with
a single request and no retry. -/
theorem C3_send_message_retry_policy :
    (∀ (oracle : Nat → App.Outcome) (r : Nat),
        (App.send_message oracle r).requests ≤ App.MAX_RETRIES - r) ∧
    (∀ (oracle : Nat → App.Outcome) (r : Nat), r < App.MAX_RETRIES →
        oracle r = .httpError →
        App.send_message oracle r =
          ⟨(App.send_message oracle (r + 1)).reply,
           (App.send_message oracle (r + 1)).requests + 1,
           (App.send_message oracle (r + 1)).waitTime + 1⟩) ∧
    (∀ (oracle : Nat → App.Outcome) (r : Nat), r < App.MAX_RETRIES →
        oracle r = .timeout →
        App.send_message oracle r =
          ⟨(App.send_message oracle (r + 1)).reply,
           (App.send_message oracle (r + 1)).requests + 1,
           (App.send_message oracle (r + 1)).waitTime + 2⟩) ∧
    (∀ (oracle : Nat → App.Outcome) (r : Nat), r < App.MAX_RETRIES →
        oracle r = .connectionError →
        App.send_message oracle r =
          ⟨"Error: Could not connect to Ollama server. Please ensure it is running.", 1, 0⟩) ∧
    (∀ oracle : Nat → App.Outcome,
        (∀ i, i < App.MAX_RETRIES → oracle i = .httpError ∨ oracle i = .timeout) →
        (App.send_message oracle 0).reply =
          "Error: Maximum retries reached. Please try again later.") :=
  ⟨send_message_requests_le, send_message_http, send_message_timeout,
   send_message_conn, send_message_exhausted⟩

/-- Concrete instance of `C3_send_message_retry_policy`: an always-failing
backend exhausts the retries, and a refused connection fails at once. -/
theorem C3_send_message_retry_policy_witness :
    (App.send_message (fun _ => App.Outcome.httpError) 0).reply =
      "Error: Maximum retries reached. Please try again later." ∧
    App.send_message (fun _ => App.Outcome.connectionError) 0 =
      ⟨"Error: Could not connect to Ollama server. Please ensure it is running.", 1, 0⟩ ∧
    (App.send_message (fun _ => App.Outcome.timeout) 0).requests ≤ App.MAX_RETRIES - 0 :=
  ⟨C3_send_message_retry_policy.2.2.2.2 _ (fun i _ => Or.inl rfl),
   C3_send_message_retry_policy.2.2.2.1 _ 0 (by decide) rfl,
   C3_send_message_retry_policy.1 _ 0⟩

/-! Theorems about streaming, cancellation and error turns (claims C4 and C9). -/

/-- If the stop flag is unset for the first `k` flag reads and set at the
`k`-th, the streaming loop consumes exactly the first `k` fragments. -/
theorem stream_loop_take :
    ∀ (lines : List String) (k i : Nat) (stopAt : Nat → Bool),
      k ≤ lines.length → (∀ j, j < k → stopAt (i + j) = false) →
      stopAt (i + k) = true →
      TotalFinal.stream_loop stopAt lines i = lines.take k := by
  intro lines
  induction lines with
  | nil =>
      intro k i stopAt hk _ _
      have : k = 0 := Nat.le_zero.mp hk
      subst this
      simp [TotalFinal.stream_loop]
  | cons tok rest ih =>
      intro k i stopAt hk hpre hstop
      cases k with
      | zero =>
          have h0 : stopAt i = true := by simpa using hstop
          simp [TotalFinal.stream_loop, h0]
      | succ k =>
          have h0 : stopAt i = false := by simpa using hpre 0 (Nat.succ_pos k)
          rw [TotalFinal.stream_loop, h0]
          simp only [Bool.false_eq_true, if_false, List.take_succ_cons]
          congr 1
          refine ih k (i + 1) stopAt (Nat.succ_le_succ_iff.mp hk) ?_ ?_
          · intro j hj
            have := hpre (j + 1) (by omega)
            rwa [show i + (j + 1) = i + 1 + j by omega] at this
          · rwa [show i + (k + 1) = i + 1 + k by omega] at hstop

/-- Claim C4: the cancellation flag is read before each fragment; if it
turns out set right after the first `k` fragments were consumed,
`stream_response` returns exactly the concatenation of those `k` fragments
as a normal result, and the submit cycle appends and persists the
assistant turn with exactly that partial text. -/
theorem C4_streaming_cancellation (stopAt : Nat → Bool) (lines : List String) (k : Nat)
    (now : Nat) (ts : String) (st : TotalFinal.ChatState) (user_input : String)
    (hk : k ≤ lines.length) (hpre : ∀ j, j < k → stopAt j = false)
    (hstop : stopAt k = true) :
    TotalFinal.stream_response stopAt (.ok lines) = String.join (lines.take k) ∧
    (TotalFinal.submit_cycle stopAt (.ok lines) now ts st user_input).messages =
      st.messages ++ [⟨"user", user_input, ts⟩,
        ⟨"assistant", String.join (lines.take k), ts⟩] ∧
    (TotalFinal.submit_cycle stopAt (.ok lines) now ts st user_input).store.messages =
      st.store.messages ++
        [⟨st.store.nextMsgId, st.conversation_id, "user", user_input, now⟩,
         ⟨st.store.nextMsgId + 1, st.conversation_id, "assistant",
           String.join (lines.take k), now⟩] := by
  have hsr : TotalFinal.stream_response stopAt (.ok lines) = String.join (lines.take k) := by
    show String.join (TotalFinal.stream_loop stopAt lines 0) = _
    rw [stream_loop_take lines k 0 stopAt hk (fun j hj => by simpa using hpre j hj)
      (by simpa using hstop)]
  refine ⟨hsr, ?_, ?_⟩
  · simp [TotalFinal.submit_cycle, History.add_message, hsr]
  · simp [TotalFinal.submit_cycle, History.add_message, hsr]

/-- Concrete instance of `C4_streaming_cancellation`: cancel after the
first of three fragments, starting from an empty session. -/
theorem C4_streaming_cancellation_witness :
    TotalFinal.stream_response (fun i => i == 1)
      (TotalFinal.StreamOutcome.ok ["Hel", "lo", "!"]) =
      String.join (["Hel", "lo", "!"].take 1) ∧
    (TotalFinal.submit_cycle (fun i => i == 1)
        (TotalFinal.StreamOutcome.ok ["Hel", "lo", "!"]) 7 "09:00 AM"
        ⟨[], ⟨[], [], 1, 1⟩, 5⟩ "hi").messages =
      [] ++ [⟨"user", "hi", "09:00 AM"⟩,
        ⟨"assistant", String.join (["Hel", "lo", "!"].take 1), "09:00 AM"⟩] ∧
    (TotalFinal.submit_cycle (fun i => i == 1)
        (TotalFinal.StreamOutcome.ok ["Hel", "lo", "!"]) 7 "09:00 AM"
        ⟨[], ⟨[], [], 1, 1⟩, 5⟩ "hi").store.messages =
      [] ++ [⟨1, 5, "user", "hi", 7⟩,
        ⟨1 + 1, 5, "assistant", String.join (["Hel", "lo", "!"].take 1), 7⟩] :=
  C4_streaming_cancellation (fun i => i == 1) ["Hel", "lo", "!"] 1 7 "09:00 AM"
    ⟨[], ⟨[], [], 1, 1⟩, 5⟩ "hi" (by decide) (fun j hj => by interval_cases j; rfl)
    (by decide)

/-- Claim C9: a terminal Inference Client error is rendered as
`"Error: " ++ msg` and stored verbatim as the assistant turn's content,
both in the in-memory buffer and in the store; the cycle completes
normally (the model's `stream_response` and `submit_cycle` are total
functions — the Python code catches every exception on this path, so no
backend failure escapes the submit path). -/
theorem C9_error_turn_persisted (stopAt : Nat → Bool) (m : String) (now : Nat)
    (ts : String) (st : TotalFinal.ChatState) (user_input : String) :
    TotalFinal.stream_response stopAt (.exn m) = "Error: " ++ m ∧
    (TotalFinal.submit_cycle stopAt (.exn m) now ts st user_input).messages =
      st.messages ++ [⟨"user", user_input, ts⟩, ⟨"assistant", "Error: " ++ m, ts⟩] ∧
    (TotalFinal.submit_cycle stopAt (.exn m) now ts st user_input).store.messages =
      st.store.messages ++
        [⟨st.store.nextMsgId, st.conversation_id, "user", user_input, now⟩,
         ⟨st.store.nextMsgId + 1, st.conversation_id, "assistant", "Error: " ++ m, now⟩] := by
  refine ⟨rfl, ?_, ?_⟩
  · simp [TotalFinal.submit_cycle, TotalFinal.stream_response, History.add_message]
  · simp [TotalFinal.submit_cycle, TotalFinal.stream_response, History.add_message]

/-! Theorems about `analyze_conversation` (claims C2 and C10). -/

/-- The user-authored contents of a message list, in order. -/
def userContents (msgs : List TotalFinal.Msg) : List String :=
  (msgs.filter (fun m => m.role == "user")).map (fun m => m.content)

/-- The `full_text` of `total-final.py`: user contents joined by spaces. -/
def userText (msgs : List TotalFinal.Msg) : String :=
  String.intercalate " " (userContents msgs)

/-- The `full_text` of `final.py`: ALL contents joined by spaces. -/
def allText (msgs : List TotalFinal.Msg) : String :=
  String.intercalate " " (msgs.map (fun m => m.content))

/-- The per-turn word counts (`len(msg["content"].split())`). -/
def wordCounts (msgs : List TotalFinal.Msg) : List Nat :=
  msgs.map (fun m => (pySplitWs m.content).length)

/-- Characterization of the `total-final.py` bundle on a non-empty list. -/
theorem analyze_conversation_eq (f : String → ℚ) (msgs : List TotalFinal.Msg)
    (h : msgs ≠ []) :
    TotalFinal.analyze_conversation f msgs = some
      { sentiment := f (userText msgs)
        emotional_state := TotalFinal.determine_emotional_state (f (userText msgs))
        topics := TotalFinal.extract_topics (userText msgs) 5
        message_lengths := wordCounts msgs
        total_messages := msgs.length
        user_message_count := (userContents msgs).length
        avg_message_length := ((wordCounts msgs).sum : ℚ) / ((wordCounts msgs).length : ℚ) } := by
  unfold TotalFinal.analyze_conversation
  rw [if_neg (by simpa [List.isEmpty_iff] using h)]
  rfl

/-- Characterization of the `final.py` bundle on a non-empty list. -/
theorem final_analyze_conversation_eq (f : String → ℚ) (msgs : List TotalFinal.Msg)
    (h : msgs ≠ []) :
    Final.analyze_conversation f msgs = some
      { sentiment := f (allText msgs)
        topics := TotalFinal.extract_topics (allText msgs) 5
        message_lengths := wordCounts msgs
        total_messages := msgs.length
        avg_message_length := ((wordCounts msgs).sum : ℚ) / ((wordCounts msgs).length : ℚ) } := by
  unfold Final.analyze_conversation
  rw [if_neg (by simpa [List.isEmpty_iff] using h)]
  rfl

/-- Claim C2 fails as stated for the `final.py` variant: its topics are
computed over ALL turn contents, so an assistant turn mentioning "sadness"
changes the topic list away from the user-only one. -/
theorem C2_assistant_included_counterexample :
    (Final.analyze_conversation (fun _ => 0)
        [⟨"user", "weather", "t"⟩, ⟨"assistant", "sadness sadness", "t"⟩]).map
      (fun a => a.topics) = some ["sadness", "weather"] ∧
    userText [⟨"user", "weather", "t"⟩, ⟨"assistant", "sadness sadness", "t"⟩] = "weather" ∧
    TotalFinal.extract_topics "weather" 5 = ["weather"] ∧
    (["sadness", "weather"] : List String) ≠ ["weather"] := by
  refine ⟨?_, by decide, by decide, by decide⟩
  rw [final_analyze_conversation_eq _ _ (by decide)]
  simp only [Option.map_some']
  decide

/-- Claim C2 (amended): in the `total-final.py` variant,
`analyze_conversation` computes sentiment and topics over the
concatenation of user-authored contents only (so the bundle's sentiment,
emotion label and topics are invariant under changes to assistant turns),
and the word counts and their mean are computed over all turns; in the
earlier `final.py` variant, sentiment and topics are instead computed over
the concatenation of ALL turn contents, assistant turns included. -/
theorem C2_user_only_analysis :
    (∀ (f : String → ℚ) (m1 m2 : List TotalFinal.Msg),
        userContents m1 = userContents m2 → m1 ≠ [] → m2 ≠ [] →
        (TotalFinal.analyze_conversation f m1).map
            (fun a => (a.sentiment, a.emotional_state, a.topics)) =
          (TotalFinal.analyze_conversation f m2).map
            (fun a => (a.sentiment, a.emotional_state, a.topics))) ∧
    (∀ (f : String → ℚ) (msgs : List TotalFinal.Msg) (a : TotalFinal.Analysis),
        TotalFinal.analyze_conversation f msgs = some a →
        a.sentiment = f (userText msgs) ∧
        a.topics = TotalFinal.extract_topics (userText msgs) 5 ∧
        a.message_lengths = wordCounts msgs ∧
        a.avg_message_length =
          ((wordCounts msgs).sum : ℚ) / ((wordCounts msgs).length : ℚ)) ∧
    (∀ (f : String → ℚ) (msgs : List TotalFinal.Msg) (a : Final.Analysis),
        Final.analyze_conversation f msgs = some a →
        a.sentiment = f (allText msgs) ∧
        a.topics = TotalFinal.extract_topics (allText msgs) 5 ∧
        a.message_lengths = wordCounts msgs) := by
  refine ⟨?_, ?_, ?_⟩
  · intro f m1 m2 heq h1 h2
    rw [analyze_conversation_eq f m1 h1, analyze_conversation_eq f m2 h2]
    simp only [Option.map_some']
    have hut : userText m1 = userText m2 := by rw [userText, userText, heq]
    rw [hut]
  · intro f msgs a ha
    rw [analyze_conversation_eq f msgs
      (by rintro rfl; simp [TotalFinal.analyze_conversation] at ha)] at ha
    injection ha with ha
    subst ha
    exact ⟨rfl, rfl, rfl, rfl⟩
  · intro f msgs a ha
    rw [final_analyze_conversation_eq f msgs
      (by rintro rfl; simp [Final.analyze_conversation] at ha)] at ha
    injection ha with ha
    subst ha
    exact ⟨rfl, rfl, rfl⟩

/-- Concrete instance of `C2_user_only_analysis`: dropping an assistant
turn does not change sentiment, emotion label or topics. -/
theorem C2_user_only_analysis_witness :
    (TotalFinal.analyze_conversation (fun _ => 0)
        [⟨"user", "hello world", "t"⟩, ⟨"assistant", "ignored stuff", "t"⟩]).map
      (fun a => (a.sentiment, a.emotional_state, a.topics)) =
    (TotalFinal.analyze_conversation (fun _ => 0) [⟨"user", "hello world", "t"⟩]).map
      (fun a => (a.sentiment, a.emotional_state, a.topics)) :=
  C2_user_only_analysis.1 (fun _ => 0) _ _ (by decide) (by decide) (by decide)

/-- Claim C10: both `analyze_conversation` variants return `None` exactly
on the empty message list; whenever a bundle is produced, the
`message_lengths` list has the (positive) length of the message list, so
the division defining `avg_message_length` has a strictly positive
divisor. -/
theorem C10_empty_guard (f : String → ℚ) (msgs : List TotalFinal.Msg) :
    ((TotalFinal.analyze_conversation f msgs = none ↔ msgs = []) ∧
     (∀ a : TotalFinal.Analysis, TotalFinal.analyze_conversation f msgs = some a →
        a.message_lengths.length = msgs.length ∧ 0 < a.message_lengths.length ∧
        a.avg_message_length =
          (a.message_lengths.sum : ℚ) / (a.message_lengths.length : ℚ))) ∧
    ((Final.analyze_conversation f msgs = none ↔ msgs = []) ∧
     (∀ a : Final.Analysis, Final.analyze_conversation f msgs = some a →
        a.message_lengths.length = msgs.length ∧ 0 < a.message_lengths.length ∧
        a.avg_message_length =
          (a.message_lengths.sum : ℚ) / (a.message_lengths.length : ℚ))) := by
  constructor
  · constructor
    · cases msgs <;> simp [TotalFinal.analyze_conversation]
    · intro a ha
      have hne : msgs ≠ [] := by
        rintro rfl; simp [TotalFinal.analyze_conversation] at ha
      rw [analyze_conversation_eq f msgs hne] at ha
      injection ha with ha
      subst ha
      refine ⟨by simp [wordCounts], ?_, by simp [wordCounts]⟩
      simp only [wordCounts, List.length_map]
      exact List.length_pos.mpr hne
  · constructor
    · cases msgs <;> simp [Final.analyze_conversation]
    · intro a ha
      have hne : msgs ≠ [] := by
        rintro rfl; simp [Final.analyze_conversation] at ha
      rw [final_analyze_conversation_eq f msgs hne] at ha
      injection ha with ha
      subst ha
      refine ⟨by simp [wordCounts], ?_, by simp [wordCounts]⟩
      simp only [wordCounts, List.length_map]
      exact List.length_pos.mpr hne

/-- Concrete instance of `C10_empty_guard`: a one-message list does not
map to `None`. -/
theorem C10_empty_guard_witness :
    TotalFinal.analyze_conversation (fun _ => 0) [⟨"user", "hi", "t"⟩] ≠ none ∧
    Final.analyze_conversation (fun _ => 0) [⟨"user", "hi", "t"⟩] ≠ none := by
  have h := C10_empty_guard (fun _ => 0) [⟨"user", "hi", "t"⟩]
  constructor
  · intro hn
    exact absurd (h.1.1.mp hn) (by decide)
  · intro hn
    exact absurd (h.2.1.mp hn) (by decide)

/-! Theorems about the Conversation Store (claims C5 and C6). -/

/-- Claim C5 concerns: with foreign keys unenforced (sqlite3 default),
`add_message` appends a row for ANY conversation id — known or not — and
`update_conversation_analysis` on an absent id is a silent no-op.
Neither raises an `UnknownConversation`-style error. -/
theorem C5_unknown_conversation_behavior :
    (∀ (s : History.Store) (now cid : Nat) (role content : String),
        (History.add_message s now cid role content).messages =
          s.messages ++ [⟨s.nextMsgId, cid, role, content, now⟩] ∧
        (History.add_message s now cid role content).messages.length =
          s.messages.length + 1) ∧
    (∀ (s : History.Store) (cid : Nat) (q : ℚ) (t : List String),
        cid ∉ s.conversations.map (fun c => c.id) →
        History.update_conversation_analysis s cid q t = s) := by
  constructor
  · intro s now cid role content
    exact ⟨rfl, by simp [History.add_message]⟩
  · intro s cid q t h
    unfold History.update_conversation_analysis
    have hmap : s.conversations.map (fun c =>
        if c.id == cid then { c with sentiment := some q, topics := some t } else c) =
        s.conversations := by
      conv_rhs => rw [← List.map_id s.conversations]
      apply List.map_congr_left
      intro c hc
      have hne : c.id ≠ cid := fun he => h (he ▸ List.mem_map_of_mem (fun c => c.id) hc)
      simp [hne]
    rw [hmap]

/-- Concrete instance of `C5_unknown_conversation_behavior`: on an empty
store (so conversation 999 does not exist), `add_message` still inserts a
dangling row and `update_conversation_analysis` silently changes
nothing. -/
theorem C5_unknown_conversation_behavior_witness :
    (History.add_message ⟨[], [], 1, 1⟩ 0 999 "user" "hi").messages =
      [] ++ [⟨1, 999, "user", "hi", 0⟩] ∧
    History.update_conversation_analysis ⟨[], [], 1, 1⟩ 999 0 [] = ⟨[], [], 1, 1⟩ :=
  ⟨(C5_unknown_conversation_behavior.1 ⟨[], [], 1, 1⟩ 0 999 "user" "hi").1,
   C5_unknown_conversation_behavior.2 ⟨[], [], 1, 1⟩ 999 0 [] (by decide)⟩

/-- The rows inserted by a sequence of `add_message` calls for
conversation `cid`, with ids allocated from `startId`. -/
def mkRows (cid : Nat) : Nat → List ((String × String) × Nat) → List History.MessageRow
  | _, [] => []
  | startId, (rc, t) :: rest => ⟨startId, cid, rc.1, rc.2, t⟩ :: mkRows cid (startId + 1) rest

/-- Folding `add_message` over a list of (role, content) pairs, each
stamped with its wall-clock time. -/
def appendTurns : History.Store → Nat → List ((String × String) × Nat) → History.Store
  | s, _, [] => s
  | s, cid, (rc, t) :: rest => appendTurns (History.add_message s t cid rc.1 rc.2) cid rest

theorem appendTurns_messages :
    ∀ (tt : List ((String × String) × Nat)) (s : History.Store) (cid : Nat),
      (appendTurns s cid tt).messages = s.messages ++ mkRows cid s.nextMsgId tt := by
  intro tt
  induction tt with
  | nil => intro s cid; simp [appendTurns, mkRows]
  | cons rt rest ih =>
      intro s cid
      obtain ⟨rc, t⟩ := rt
      rw [appendTurns, ih, mkRows]
      simp [History.add_message]

theorem mkRows_filter (cid : Nat) :
    ∀ (i : Nat) (tt : List ((String × String) × Nat)),
      (mkRows cid i tt).filter (fun m => m.conversation_id == cid) = mkRows cid i tt := by
  intro i tt
  induction tt generalizing i with
  | nil => simp [mkRows]
  | cons rt rest ih =>
      obtain ⟨rc, t⟩ := rt
      simp [mkRows, List.filter_cons, ih]

theorem mkRows_timestamps (cid : Nat) :
    ∀ (i : Nat) (tt : List ((String × String) × Nat)),
      (mkRows cid i tt).map (fun m => m.timestamp) = tt.map (fun rt => rt.2) := by
  intro i tt
  induction tt generalizing i with
  | nil => simp [mkRows]
  | cons rt rest ih =>
      obtain ⟨rc, t⟩ := rt
      simp [mkRows, ih]

theorem mkRows_sorted (cid : Nat) (i : Nat) (tt : List ((String × String) × Nat))
    (hmono : List.Pairwise (· ≤ ·) (tt.map (fun rt => rt.2))) :
    List.Sorted History.tsLe (mkRows cid i tt) := by
  rw [← mkRows_timestamps cid i tt] at hmono
  have h2 := List.pairwise_map.mp hmono
  exact h2.imp (fun h => h)

theorem mkRows_proj (cid : Nat) :
    ∀ (i : Nat) (tt : List ((String × String) × Nat)),
      (mkRows cid i tt).map (fun m => (m.role, m.content, m.timestamp)) =
        tt.map (fun rt => (rt.1.1, rt.1.2, rt.2)) := by
  intro i tt
  induction tt generalizing i with
  | nil => simp [mkRows]
  | cons rt rest ih =>
      obtain ⟨rc, t⟩ := rt
      simp [mkRows, ih]

/-- Claim C6: starting from a store with no rows for conversation `cid`,
appending N turns (with the wall clock non-decreasing across the inserts,
as `CURRENT_TIMESTAMP` is) and reading back with
`get_conversation_history` yields exactly the appended (role, content,
timestamp) triples in insertion order, and the returned timestamps are
non-decreasing. -/
theorem C6_roundtrip (s : History.Store) (cid : Nat)
    (tt : List ((String × String) × Nat))
    (hbase : s.messages.filter (fun m => m.conversation_id == cid) = [])
    (hmono : List.Pairwise (· ≤ ·) (tt.map (fun rt => rt.2))) :
    History.get_conversation_history (appendTurns s cid tt) cid =
      tt.map (fun rt => (rt.1.1, rt.1.2, rt.2)) ∧
    List.Pairwise (· ≤ ·)
      ((History.get_conversation_history (appendTurns s cid tt) cid).map
        (fun r => r.2.2)) := by
  unfold History.get_conversation_history
  rw [appendTurns_messages tt s cid, List.filter_append, hbase, List.nil_append,
    mkRows_filter cid s.nextMsgId tt,
    List.Sorted.insertionSort_eq (mkRows_sorted cid s.nextMsgId tt hmono),
    mkRows_proj cid s.nextMsgId tt]
  refine ⟨rfl, ?_⟩
  rw [List.map_map]
  exact hmono

/-- Concrete instance of `C6_roundtrip`: two turns appended to a fresh
store read back in order with their timestamps. -/
theorem C6_roundtrip_witness :
    History.get_conversation_history
        (appendTurns ⟨[], [], 1, 1⟩ 7 [(("user", "hi"), 1), (("assistant", "hello"), 2)]) 7 =
      [("user", "hi", 1), ("assistant", "hello", 2)] ∧
    List.Pairwise (· ≤ ·)
      ((History.get_conversation_history
          (appendTurns ⟨[], [], 1, 1⟩ 7
            [(("user", "hi"), 1), (("assistant", "hello"), 2)]) 7).map
        (fun r => r.2.2)) :=
  C6_roundtrip ⟨[], [], 1, 1⟩ 7 [(("user", "hi"), 1), (("assistant", "hello"), 2)]
    (by decide) (by decide)
